import Mathlib

/-!
Shallow embedding of the rust-pentagram renderer core: star geometry factory,
procedural instance populator, surface (re)configuration, per-frame render
orchestration, and frame-timing statistics, as implemented in
`src/src/state.rs`, `src/src/vertex.rs`, `src/workspace/src/state.rs` and
`src/workspace/src/instance.rs`.

Machine floats (`f32`, `f64`) are modelled as real respectively rational
numbers with the source's literals taken at face value; `u16` casts are
modelled by reduction modulo 2^16; Rust `Option` fields map to Lean `Option`;
a Rust panic (`unwrap` on a failing value) is modelled by the result `none`.
-/

namespace Pentagram

/-- Number of star instances, `WgpuState::STAR_INSTANCE_COUNT = 500`. -/
def STAR_INSTANCE_COUNT : ℕ := 500

/-! ## Geometry factory (`create_star_vertices`, `Vertex::get_vertices`) -/

/-- A vertex of the shared star mesh: one 2D position (`struct Vertex`). -/
structure Vertex where
  position : ℝ × ℝ

/-- Vertex list of `create_star_vertices` / `Vertex::get_vertices`,
parametrised by the point count `num_points` (the source fixes 5) and the
radius (the source fixes 1.0): the centre vertex at the origin first, then
one outer vertex per loop iteration `i` at angle
`i * 2π / num_points − π/2`. -/
noncomputable def star_vertices (num_points : ℕ) (radius : ℝ) : List Vertex :=
  Vertex.mk (0, 0) ::
    (List.range num_points).map fun (i : ℕ) =>
      let angle : ℝ := (i : ℝ) * 2 * Real.pi / (num_points : ℝ) - Real.pi / 2
      Vertex.mk (radius * Real.cos angle, radius * Real.sin angle)

/-- Index list of `create_star_vertices`: for each `i` in `0..num_points` the
loop extends the list with `[0, current as u16, next as u16]` where
`current = 1 + i` and `next = 1 + ((i + 2) % num_points)`; the `as u16`
casts are reduction modulo 2^16. -/
def star_indices (num_points : ℕ) : List ℕ :=
  ((List.range num_points).map fun i =>
    let current := 1 + i
    let next := 1 + ((i + 2) % num_points)
    [0, current % 65536, next % 65536]).flatten

/-- The spec's index rule, written from its words for comparison with
`star_indices`: "for i in [0,N), emit triangle (0, 1+i, 1+((i+2) mod N))". -/
def star_index_rule (n : ℕ) : List ℕ :=
  ((List.range n).map fun i => [0, 1 + i, 1 + ((i + 2) % n)]).flatten

/-- The spec's rejected alternative, a simple fan connecting each outer
vertex to its immediate neighbour: triangle (0, 1+i, 1+((i+1) mod N)). -/
def star_fan_rule (n : ℕ) : List ℕ :=
  ((List.range n).map fun i => [0, 1 + i, 1 + ((i + 1) % n)]).flatten

/-- The geometry as built by the program, `WgpuState::create_star_vertices`,
with its hard-coded `num_points = 5` and `radius = 1.0`. -/
noncomputable def create_star_vertices : List Vertex × List ℕ :=
  (star_vertices 5 1, star_indices 5)

/-- Helper: flattening length-3 blocks, one per element of `List.range n`,
yields a list of length `3 * n`. -/
theorem length_flatten_triples (f : ℕ → List ℕ) (h : ∀ i, (f i).length = 3)
    (n : ℕ) : (((List.range n).map f).flatten).length = 3 * n := by
  induction n with
  | zero => simp
  | succ k ih =>
      rw [List.range_succ, List.map_append, List.flatten_append]
      simp [ih, h k, Nat.mul_succ]

/-- Helper: the index list has length `3 * num_points`. -/
theorem star_indices_length (n : ℕ) : (star_indices n).length = 3 * n := by
  rw [star_indices]
  apply length_flatten_triples
  intro i
  rfl

/-- Helper: the vertex list has length `num_points + 1`. -/
theorem star_vertices_length (n : ℕ) (r : ℝ) :
    (star_vertices n r).length = n + 1 := by
  rw [star_vertices]
  simp

/-! ## Frame statistics (`FrameStats` in `src/workspace/src/state.rs`) -/

/-- Largest finite `f64` value, the initial `min_time` (`f64::MAX`). -/
def f64_MAX : ℚ := (2 ^ 53 - 1) * 2 ^ 971

/-- Rolling statistics over per-frame render durations (`struct FrameStats`). -/
structure FrameStats where
  min_time : ℚ
  max_time : ℚ
  total_time : ℚ
  frame_count : ℕ
  deriving DecidableEq

/-- Constructor `FrameStats::new`: min = `f64::MAX`, max = 0, total = 0,
count = 0. -/
def FrameStats.new : FrameStats :=
  { min_time := f64_MAX, max_time := 0, total_time := 0, frame_count := 0 }

/-- Method `FrameStats::update(frame_time)`: lower `min_time` / raise
`max_time` when the new duration passes them, accumulate the total, and
increment the count. -/
def FrameStats.update (s : FrameStats) (frame_time : ℚ) : FrameStats :=
  { min_time := if frame_time < s.min_time then frame_time else s.min_time
    max_time := if frame_time > s.max_time then frame_time else s.max_time
    total_time := s.total_time + frame_time
    frame_count := s.frame_count + 1 }

/-- Method `FrameStats::average_time`: 0 when no frame was recorded,
otherwise the accumulated total divided by the count. -/
def FrameStats.average_time (s : FrameStats) : ℚ :=
  if s.frame_count = 0 then 0 else s.total_time / (s.frame_count : ℚ)

/-! ## Surface configuration and resize -/

/-- Model of `wgpu::SurfaceConfiguration` as populated by this program; the
opaque enumeration-valued fields (usage, texture format, present mode, alpha
mode) are identifiers drawn from ℕ. -/
structure SurfaceConfiguration where
  usage : ℕ
  format : ℕ
  width : ℕ
  height : ℕ
  present_mode : ℕ
  alpha_mode : ℕ
  view_formats : List ℕ
  desired_maximum_frame_latency : ℕ
  deriving DecidableEq

/-- Model of `wgpu::SurfaceCapabilities`: the lists the platform reports at
negotiation time. -/
structure SurfaceCaps where
  formats : List ℕ
  present_modes : List ℕ
  alpha_modes : List ℕ

/-- The initial surface configuration built during context negotiation
(`WgpuState::new`, `new_async`, `wasm_runtime_setup`): take-first for
format/present mode/alpha mode (Rust `caps.formats[0]` indexing, which
aborts when the platform reports an empty list — modelled as `none`),
`width = size.width.max(1)`, `height = size.height.max(1)`, empty view
formats and a frame-latency cap of 1. -/
def init_config (size : ℕ × ℕ) (caps : SurfaceCaps) : Option SurfaceConfiguration :=
  match caps.formats, caps.present_modes, caps.alpha_modes with
  | f :: _, p :: _, a :: _ =>
      some { usage := 0
             format := f
             width := max size.1 1
             height := max size.2 1
             present_mode := p
             alpha_mode := a
             view_formats := []
             desired_maximum_frame_latency := 1 }
  | _, _, _ => none

/-- Model of `WgpuState` (field-for-field from `src/workspace/src/state.rs`,
which also carries the frame statistics); opaque GPU resource handles are
`Option Unit`, mirroring which fields are `Option` in the source. -/
structure WgpuState where
  wgpu_instance : Unit
  surface : Unit
  device : Option Unit
  queue : Option Unit
  config : Option SurfaceConfiguration
  size : ℕ × ℕ
  render_pipeline : Option Unit
  vertex_buffer : Option Unit
  num_vertices : Option ℕ
  index_buffer : Option ℕ
  num_indices : Option ℕ
  uniform_buffer : Option Unit
  uniform_bind_group : Option Unit
  instance_buffer : Option Unit
  start_time : Option ℚ
  frame_stats : FrameStats

/-- Method `WgpuState::resize(new_size)`: when both dimensions are positive,
store the new size, update the width/height of the stored configuration when
one is present, and reconfigure the surface — which `unwrap`s the device and
the configuration, so a missing one aborts (`none`). When either dimension
is zero nothing happens. The Boolean records whether `surface.configure`
was called. -/
def resize (s : WgpuState) (w h : ℕ) : Option (WgpuState × Bool) :=
  if 0 < w ∧ 0 < h then
    let s1 : WgpuState :=
      { s with size := (w, h)
               config := match s.config with
                         | some c => some { c with width := w, height := h }
                         | none => none }
    match s1.device, s1.config with
    | some _, some _ => some (s1, true)
    | _, _ => none
  else
    some (s, false)

/-! ## Instance populator (`create_star_instances`) -/

/-- Per-star transform parameters (`struct Instance`). -/
structure Instance where
  position : ℝ × ℝ
  scale : ℝ
  initial_rotation : ℝ
  speed : ℝ × ℝ
  rotation_speed : ℝ

/-- One loop iteration of `create_star_instances`. The draws of
`rng.gen_range(lo..hi)` are modelled by a draw function `d`: the k-th call
on the generator, asked for the half-open range `[lo, hi)`, returns
`d k lo hi`. Iteration `j` performs the source's seven calls in order. -/
noncomputable def mk_instance (d : ℕ → ℝ → ℝ → ℝ) (j : ℕ) : Instance :=
  { position := (d (7 * j) (-0.9) 0.9, d (7 * j + 1) (-0.9) 0.9)
    scale := d (7 * j + 2) 0.02 0.05
    initial_rotation := d (7 * j + 3) 0 (Real.pi * 2)
    speed := (d (7 * j + 4) (-0.3) 0.3, d (7 * j + 5) (-0.3) 0.3)
    rotation_speed := d (7 * j + 6) 0.5 2 }

/-- The loop of `create_star_instances`: `STAR_INSTANCE_COUNT` pushes, the
j-th consuming draws `7j .. 7j+6` of the chosen generator. -/
noncomputable def create_star_instances_rng (d : ℕ → ℝ → ℝ → ℝ) : List Instance :=
  (List.range STAR_INSTANCE_COUNT).map (mk_instance d)

/-- Function `create_star_instances`, including its platform-conditional
generator choice: on `wasm32` the generator is
`SmallRng::seed_from_u64(0)` — the library's deterministic stream as a
function `small_rng_from_seed` of the seed, applied to the fixed seed 0 —
while natively it is `thread_rng()`, a fresh per-run entropy stream
`thread_rng_draws`. -/
noncomputable def create_star_instances (target_wasm : Bool)
    (small_rng_from_seed : ℕ → ℕ → ℝ → ℝ → ℝ)
    (thread_rng_draws : ℕ → ℝ → ℝ → ℝ) : List Instance :=
  let draws := if target_wasm then small_rng_from_seed 0 else thread_rng_draws
  create_star_instances_rng draws

/-- The field bounds claimed for every generated instance. -/
def InstanceInBounds (inst : Instance) : Prop :=
  -0.9 ≤ inst.position.1 ∧ inst.position.1 ≤ 0.9 ∧
  -0.9 ≤ inst.position.2 ∧ inst.position.2 ≤ 0.9 ∧
  0.02 ≤ inst.scale ∧ inst.scale ≤ 0.05 ∧
  0 ≤ inst.initial_rotation ∧ inst.initial_rotation < 2 * Real.pi ∧
  -0.3 ≤ inst.speed.1 ∧ inst.speed.1 ≤ 0.3 ∧
  -0.3 ≤ inst.speed.2 ∧ inst.speed.2 ≤ 0.3 ∧
  0.5 ≤ inst.rotation_speed ∧ inst.rotation_speed ≤ 2

/-- The contract of `rand::Rng::gen_range(lo..hi)`: every draw from a
nonempty half-open range lies in it. -/
def DrawsInRange (d : ℕ → ℝ → ℝ → ℝ) : Prop :=
  ∀ (k : ℕ) (lo hi : ℝ), lo < hi → lo ≤ d k lo hi ∧ d k lo hi < hi

/-- A draw function that always answers with the low end of the range. -/
def lo_draw : ℕ → ℝ → ℝ → ℝ := fun _ lo _ => lo

/-! ## Per-frame renderer (`WgpuState::render`) -/

/-- The `wgpu::SurfaceError` kinds a frame acquisition can fail with. -/
inductive SurfaceError
  | timeout
  | outdated
  | lost
  | outOfMemory
  deriving DecidableEq

/-- An RGBA double color (`wgpu::Color`). -/
structure Color where
  r : ℚ
  g : ℚ
  b : ℚ
  a : ℚ
  deriving DecidableEq

/-- Constant `wgpu::Color::TRANSPARENT`. -/
def Color.TRANSPARENT : Color := ⟨0, 0, 0, 0⟩

/-- A color-attachment load operation (`wgpu::LoadOp`). -/
inductive LoadOp
  | clear (c : Color)
  | load
  deriving DecidableEq

/-- The clear color of the render pass recorded by `render`. The source's
render-pass descriptor reads `LoadOp::Clear(wgpu::Color::TRANSPARENT)` with
no `cfg` conditional, in both `src/src/state.rs` and
`src/workspace/src/state.rs`, so the value does not depend on the
compilation target. -/
def clear_color (target_wasm : Bool) : Color := Color.TRANSPARENT

/-- The commands `render` records into its single render pass: clear-load
the color target, bind the pipeline and bind group 0, bind vertex slots 0
and 1, bind the 16-bit index buffer, and draw `num_indices` indices over
`STAR_INSTANCE_COUNT` instances. -/
structure RenderPassRecord where
  load_op : LoadOp
  pipeline_set : Bool
  bind_group : ℕ
  vertex_slots : List ℕ
  index_format_u16 : Bool
  draw_indices : ℕ
  draw_instances : ℕ
  deriving DecidableEq

/-- Render-pass recording of `WgpuState::render`. -/
def record_render_pass (target_wasm : Bool) (num_indices : ℕ) : RenderPassRecord :=
  { load_op := LoadOp.clear (clear_color target_wasm)
    pipeline_set := true
    bind_group := 0
    vertex_slots := [0, 1]
    index_format_u16 := true
    draw_indices := num_indices
    draw_instances := STAR_INSTANCE_COUNT }

/-- Method `WgpuState::render`. The outcome of
`surface.get_current_texture()` is an input (the platform decides it); the
source immediately `unwrap`s it, so any acquisition failure aborts the
process (`none`) instead of becoming the function's return value. When
acquisition succeeds the draw commands are recorded whenever every resource
is present, the frame is presented, the frame statistics are updated with
the measured duration, and the function returns `Ok(())`. -/
def render (s : WgpuState) (target_wasm : Bool)
    (acquired : Except SurfaceError Unit) (render_time : ℚ) :
    Option (WgpuState × Option RenderPassRecord × Except SurfaceError Unit) :=
  match acquired with
  | .error _ => none
  | .ok _ =>
    let pass : Option RenderPassRecord :=
      match s.queue, s.device, s.uniform_buffer, s.render_pipeline,
            s.uniform_bind_group, s.vertex_buffer, s.index_buffer,
            s.instance_buffer, s.num_indices with
      | some _, some _, some _, some _, some _, some _, some _, some _,
        some n => some (record_render_pass target_wasm n)
      | _, _, _, _, _, _, _, _, _ => none
    let s1 := { s with frame_stats := s.frame_stats.update render_time }
    some (s1, pass, Except.ok ())

/-- Sample negotiated configuration used to instantiate universally
quantified statements. -/
def sample_config : SurfaceConfiguration :=
  { usage := 0, format := 0, width := 800, height := 600, present_mode := 0,
    alpha_mode := 0, view_formats := [], desired_maximum_frame_latency := 1 }

/-- Sample fully initialized state (every resource present), as produced by
`WgpuState::new`. -/
def sample_state : WgpuState :=
  { wgpu_instance := (), surface := (), device := some (), queue := some (),
    config := some sample_config, size := (800, 600),
    render_pipeline := some (), vertex_buffer := some (),
    num_vertices := some 6, index_buffer := some 0, num_indices := some 15,
    uniform_buffer := some (), uniform_bind_group := some (),
    instance_buffer := some (), start_time := some 0,
    frame_stats := FrameStats.new }

end Pentagram

namespace Pentagram

/-! ## Theorems -/

/-- C2: the index list produced by the geometry factory for the N=5 star
equals, in order, the concatenation over i in [0,5) of the triangle
(0, 1+i, 1+((i+2) mod 5)); concretely it is
[0,1,3, 0,2,4, 0,3,5, 0,4,1, 0,5,2], every entry fits in 16 bits, and it
differs from the simple immediate-neighbour fan. -/
theorem star_indices_skip_two_rule :
    create_star_vertices.2 = star_index_rule 5 ∧
    create_star_vertices.2 = [0, 1, 3, 0, 2, 4, 0, 3, 5, 0, 4, 1, 0, 5, 2] ∧
    (∀ x ∈ create_star_vertices.2, x < 65536) ∧
    create_star_vertices.2 ≠ star_fan_rule 5 := by
  refine ⟨by decide, by decide, by decide, by decide⟩

/-- C3: for point count N ≥ 3 the geometry factory yields exactly N+1
vertices with the centre vertex first at the origin, and exactly 3N indices;
for the program's configured N=5 that is 6 vertices and 15 indices. -/
theorem star_geometry_counts (n : ℕ) (r : ℝ) (h : 3 ≤ n) :
    (star_vertices n r).length = n + 1 ∧
    (star_vertices n r).head? = some (Vertex.mk (0, 0)) ∧
    (star_indices n).length = 3 * n ∧
    create_star_vertices.1.length = 6 ∧
    create_star_vertices.2.length = 15 := by
  refine ⟨star_vertices_length n r, ?_, star_indices_length n, ?_, ?_⟩
  · rw [star_vertices]
    rfl
  · exact star_vertices_length 5 1
  · exact star_indices_length 5

/-- C3 witness: the bound 3 ≤ n holds at the program's configuration n = 5,
and the counts follow. -/
theorem star_geometry_counts_witness :
    3 ≤ 5 ∧
    ((star_vertices 5 1).length = 5 + 1 ∧
     (star_vertices 5 1).head? = some (Vertex.mk (0, 0)) ∧
     (star_indices 5).length = 3 * 5 ∧
     create_star_vertices.1.length = 6 ∧
     create_star_vertices.2.length = 15) :=
  ⟨by decide, star_geometry_counts 5 1 (by decide)⟩

/-- C8: `average_time` is 0 when the recorded frame count is 0 and otherwise
the running total divided by the count; recording the durations [1, 2, 3]
into a fresh `FrameStats` yields min 1, max 3, average 2 and count 3. -/
theorem frame_stats_average :
    (∀ s : FrameStats,
      s.average_time =
        if s.frame_count = 0 then 0 else s.total_time / (s.frame_count : ℚ)) ∧
    FrameStats.new.average_time = 0 ∧
    (((FrameStats.new.update 1).update 2).update 3).min_time = 1 ∧
    (((FrameStats.new.update 1).update 2).update 3).max_time = 3 ∧
    (((FrameStats.new.update 1).update 2).update 3).average_time = 2 ∧
    (((FrameStats.new.update 1).update 2).update 3).frame_count = 3 := by
  refine ⟨fun s => rfl, by decide, ?_, ?_, ?_, by decide⟩
  · norm_num [FrameStats.update, FrameStats.new, f64_MAX]
  · norm_num [FrameStats.update, FrameStats.new]
  · norm_num [FrameStats.average_time, FrameStats.update, FrameStats.new]

/-- C6: resizing with a zero dimension is a no-op for every state: the state
(size and stored configuration included) is returned unchanged and the
surface is not reconfigured. -/
theorem resize_zero_noop (s : WgpuState) (w h : ℕ) (hz : w = 0 ∨ h = 0) :
    resize s w h = some (s, false) := by
  have : ¬(0 < w ∧ 0 < h) := by
    rcases hz with rfl | rfl <;> simp
  simp [resize, this]

/-- C6 witness: resizing the sample state to width 0 leaves it unchanged and
performs no reconfiguration. -/
theorem resize_zero_noop_witness :
    ((0 : ℕ) = 0 ∨ (600 : ℕ) = 0) ∧
    resize sample_state 0 600 = some (sample_state, false) :=
  ⟨Or.inl rfl, resize_zero_noop sample_state 0 600 (Or.inl rfl)⟩

/-- C7: for every negotiated state (device and configuration present) and
positive dimensions, resize stores exactly (w, h) as the size and as the
configuration's width and height, reconfigures the surface, and is
idempotent: resizing the result with the same arguments returns it
unchanged. -/
theorem resize_sets_size_idempotent (s : WgpuState) (w h : ℕ)
    (hw : 0 < w) (hh : 0 < h)
    (hd : s.device.isSome) (hc : s.config.isSome) :
    ∃ s1, resize s w h = some (s1, true) ∧
      s1.size = (w, h) ∧
      s1.config.map SurfaceConfiguration.width = some w ∧
      s1.config.map SurfaceConfiguration.height = some h ∧
      resize s1 w h = some (s1, true) := by
  obtain ⟨c, hcfg⟩ := Option.isSome_iff_exists.mp hc
  obtain ⟨d, hdev⟩ := Option.isSome_iff_exists.mp hd
  refine ⟨{ s with size := (w, h)
                   config := some { c with width := w, height := h } },
          ?_, rfl, rfl, rfl, ?_⟩
  · simp [resize, hw, hh, hcfg, hdev]
  · simp [resize, hw, hh, hdev]

/-- C7 witness: resizing the sample state to 1024 × 768 stores exactly that
size in the state and configuration and a second identical call returns the
same state again. -/
theorem resize_sets_size_idempotent_witness :
    (0 < 1024 ∧ 0 < 768 ∧ sample_state.device.isSome ∧
      sample_state.config.isSome) ∧
    (∃ s1, resize sample_state 1024 768 = some (s1, true) ∧
      s1.size = (1024, 768) ∧
      s1.config.map SurfaceConfiguration.width = some 1024 ∧
      s1.config.map SurfaceConfiguration.height = some 768 ∧
      resize s1 1024 768 = some (s1, true)) :=
  ⟨⟨by decide, by decide, by decide, by decide⟩,
    resize_sets_size_idempotent sample_state 1024 768
      (by decide) (by decide) (by decide) (by decide)⟩

/-- C10: the initial surface configuration clamps both dimensions to at
least 1 — width = max(window width, 1), height = max(window height, 1) — so
even a 0 × 0 window never yields a zero-dimension configuration. -/
theorem init_config_clamps (w h : ℕ) (caps : SurfaceCaps)
    (hf : caps.formats ≠ []) (hp : caps.present_modes ≠ [])
    (ha : caps.alpha_modes ≠ []) :
    ∃ c, init_config (w, h) caps = some c ∧
      c.width = max w 1 ∧ c.height = max h 1 ∧
      0 < c.width ∧ 0 < c.height := by
  obtain ⟨f, fs, hfs⟩ := List.exists_cons_of_ne_nil hf
  obtain ⟨p, ps, hps⟩ := List.exists_cons_of_ne_nil hp
  obtain ⟨a, as, has⟩ := List.exists_cons_of_ne_nil ha
  refine ⟨{ usage := 0, format := f, width := max w 1, height := max h 1,
            present_mode := p, alpha_mode := a, view_formats := [],
            desired_maximum_frame_latency := 1 },
          ?_, rfl, rfl, ?_, ?_⟩
  · rw [init_config, hfs, hps, has]
  · exact lt_max_of_lt_right one_pos
  · exact lt_max_of_lt_right one_pos

/-- C4: the instance populator produces exactly 500 instances, and whenever
the generator honours the `gen_range` contract — each draw from `[lo, hi)`
lies in `[lo, hi)` — every generated instance satisfies the field bounds:
position components in [−0.9, 0.9], scale in [0.02, 0.05],
initial rotation in [0, 2π), speed components in [−0.3, 0.3] and rotation
speed in [0.5, 2.0]. -/
theorem star_instances_bounds (d : ℕ → ℝ → ℝ → ℝ) (hd : DrawsInRange d) :
    (create_star_instances_rng d).length = 500 ∧
    ∀ inst ∈ create_star_instances_rng d, InstanceInBounds inst := by
  constructor
  · rw [create_star_instances_rng]
    simp [STAR_INSTANCE_COUNT]
  · intro inst hmem
    rw [create_star_instances_rng] at hmem
    obtain ⟨j, _, rfl⟩ := List.mem_map.mp hmem
    have pi2 : (0 : ℝ) < Real.pi * 2 := by positivity
    have h1 := hd (7 * j) (-0.9) 0.9 (by norm_num)
    have h2 := hd (7 * j + 1) (-0.9) 0.9 (by norm_num)
    have h3 := hd (7 * j + 2) 0.02 0.05 (by norm_num)
    have h4 := hd (7 * j + 3) 0 (Real.pi * 2) pi2
    have h5 := hd (7 * j + 4) (-0.3) 0.3 (by norm_num)
    have h6 := hd (7 * j + 5) (-0.3) 0.3 (by norm_num)
    have h7 := hd (7 * j + 6) 0.5 2 (by norm_num)
    refine ⟨h1.1, h1.2.le, h2.1, h2.2.le, h3.1, h3.2.le, h4.1, ?_,
            h5.1, h5.2.le, h6.1, h6.2.le, h7.1, h7.2.le⟩
    calc (mk_instance d j).initial_rotation < Real.pi * 2 := h4.2
      _ = 2 * Real.pi := mul_comm _ _

/-- C4 witness: the low-end draw function honours the range contract, and
the 500 instances it yields all satisfy the field bounds. -/
theorem star_instances_bounds_witness :
    DrawsInRange lo_draw ∧
    ((create_star_instances_rng lo_draw).length = 500 ∧
      ∀ inst ∈ create_star_instances_rng lo_draw, InstanceInBounds inst) :=
  ⟨fun _ lo _ h => ⟨le_refl lo, h⟩,
    star_instances_bounds lo_draw (fun _ lo _ h => ⟨le_refl lo, h⟩)⟩

/-- C5: on the wasm32 target the generator is seeded with the fixed seed 0,
so the instance populator's output does not depend on the per-run entropy
stream: any two invocations produce identical sequences of instances. -/
theorem wasm_instances_deterministic (small_rng_from_seed : ℕ → ℕ → ℝ → ℝ → ℝ)
    (run1_entropy run2_entropy : ℕ → ℝ → ℝ → ℝ) :
    create_star_instances true small_rng_from_seed run1_entropy =
      create_star_instances true small_rng_from_seed run2_entropy := rfl

/-- C1, against which the code fails: `render` never returns an acquisition
error to its caller — the `unwrap` on `get_current_texture()` aborts the
process on every failing acquisition outcome, including SurfaceLost and
SurfaceOutdated, although the callers of `render` match on exactly those
errors. -/
theorem render_aborts_on_acquisition_failure (s : WgpuState)
    (target_wasm : Bool) (render_time : ℚ) (e : SurfaceError) :
    render s target_wasm (Except.error e) render_time = none := rfl

/-- C9, counterexample: the clear color of the render pass recorded on the
fully native target is TRANSPARENT, not opaque black. -/
theorem native_clear_not_opaque_black :
    (record_render_pass false 15).load_op = LoadOp.clear Color.TRANSPARENT ∧
    (record_render_pass false 15).load_op ≠ LoadOp.clear (Color.mk 0 0 0 1) := by
  refine ⟨rfl, by decide⟩

/-- C9, amended: the per-frame render pass clears the color target with the
transparent clear color on the embedded and on the native target alike;
there is no platform conditional in the clear policy. -/
theorem clear_color_transparent_both_targets (target_wasm : Bool) (n : ℕ) :
    (record_render_pass target_wasm n).load_op =
      LoadOp.clear Color.TRANSPARENT ∧
    clear_color target_wasm = Color.TRANSPARENT := ⟨rfl, rfl⟩

/-- C10 witness: a host window reporting 0 × 0 still yields a 1 × 1
configuration. -/
theorem init_config_clamps_witness :
    (([0] : List ℕ) ≠ [] ∧ ([0] : List ℕ) ≠ [] ∧ ([0] : List ℕ) ≠ []) ∧
    (∃ c, init_config (0, 0) ⟨[0], [0], [0]⟩ = some c ∧
      c.width = max 0 1 ∧ c.height = max 0 1 ∧
      0 < c.width ∧ 0 < c.height) :=
  ⟨⟨by decide, by decide, by decide⟩,
    init_config_clamps 0 0 ⟨[0], [0], [0]⟩
      (by decide) (by decide) (by decide)⟩

end Pentagram
